import Mathlib

/-!
# Verification of `codenamize.py`

Shallow embedding of `src/codenamize/codenamize.py` (module `codenamize`,
version 1.2.3) and proofs about it.

The word lists `ADJECTIVES_0 .. ADJECTIVES_5` and `NOUNS_0 .. NOUNS_3`
transcribe, in source order, the initial list literal and the successive
`.extend([...])` calls of the Python module (lines 106-251).  The module then
sorts both lists in place with `list.sort(key=len)` (lines 255-256); CPython's
sort is stable, and a stable sort's output is uniquely determined by the input
order and the key, so the stable insertion sort `sortByLen` below reproduces
it exactly (`insertByLen` walks past strictly shorter words only, hence words
of equal length keep their relative order).

Hashing (`hashlib.new`) is external to the repository, so it is kept abstract:
an `AlgoTable` maps an algorithm name to `some` digest function (the digest
interpreted as the big-endian integer `int(hh.hexdigest(), 16)`), or `none`
when `hashlib.new` would raise for an unknown name.  Fallible paths return
`Except Unit`.

`int(index / len(p))` at line 312 of the source is Python 3 *float* division
truncated; the embedding uses exact floor division `Nat.div`, which coincides
with the source whenever the running index stays below 2^53 (in particular for
every call with at most 4 adjectives) and is the documented intent (the module
predates Python 3, where `index / len(p)` was exact integer division).
-/

namespace Codenamize

def ADJECTIVES_0 : List String := [
    "low", "dim", "open", "soft", "vast", "calm", "deep", "slow",
    "pure", "worn", "easy", "cool", "airy", "bare", "late", "lean",
    "still", "empty", "quiet", "whole", "light", "clear", "aware", "loose",
    "fresh", "plain", "faint", "lowly", "woven", "mossy", "early", "simple",
    "humble", "rooted", "gentle", "subtle", "silent", "supple", "hidden", "serene",
    "tender", "folded", "modest", "honest", "sparse", "fallow", "dimlit", "spaced",
    "silted", "shaded", "veiled", "hollow", "mellow", "flowing", "natural", "patient",
    "present", "rounded", "playful", "aligned", "bending", "unbound", "ancient", "letting",
    "swaying", "distant", "willing", "lowborn", "moonlit", "slender", "untamed", "cracked",
    "resting", "soothed", "dawnlit", "settled", "leafing", "gentled", "unforced", "yielding",
    "grounded", "balanced", "flexible", "timeless", "dwelling", "fragrant", "tranquil", "gracious",
    "seasoned", "drifting", "watchful", "receding", "floating", "unsought", "gentlest", "seasonal",
    "spiraled", "shadowed", "pathless", "barefoot", "returning", "wandering", "weathered", "welcoming",
    "listening", "unhurried", "breathing", "receptive", "submerged", "limber", "resting", "soothed",
    "settled", "hidden", "deepest", "lightest", "emptiest", "earliest", "latest", "softest",
    "stillest", "quietest", "gentlest", "barest", "oldest", "simplest", "deepening", "bright",
    "shifting", "softening", "cooling", "warming", "floating", "wandering", "settling", "stilling",
    "spreading", "clearing" ]

def ADJECTIVES_1 : List String := [
    "clearer", "lighter", "slower", "deeper", "softer", "emptier", "vaster", "cooler",
    "quieter", "warmer", "simpler", "purer", "looser", "steadier", "smoother", "broader",
    "lower", "lighter", "gentler", "older", "younger", "brighter", "dimmed", "rooting",
    "bending", "flowing", "glimmering", "settling", "wandering", "drifting", "stilling", "listening",
    "welcoming", "shifting", "dimming", "spreading", "loosening", "warming", "cooling", "opening",
    "closing", "stretching", "thinning", "clearing", "rising", "lowering", "folding", "gathering",
    "quieting", "softening", "pausing", "stilling", "waiting", "breathing", "touching", "holding",
    "resting", "yielding", "balancing", "spanning", "swaying", "hovering", "leaning", "lingering",
    "hollowing", "brimming", "spilling", "sheltering", "blooming", "fading", "returning", "renewing",
    "opening", "closing", "growing", "shrinking", "waning", "waxing", "stilling", "sinking",
    "rising", "broadening", "narrowing", "stilling", "lengthening", "shortening", "deepening", "shallowing",
    "anchoring", "loosening", "softening", "hardening", "filling", "emptying", "gleaming", "shadowing",
    "clouding", "clearing", "grounding", "lifting", "stretching", "breathing", "soothing", "mending" ]

def ADJECTIVES_2 : List String := [
    "leafy", "misty", "woody", "stony", "muddy", "earthy", "windy", "frosty",
    "dewy", "dusty", "cloudy", "starry", "flowery", "rooted", "branching", "budding",
    "ripening", "shedding", "drooping", "curling", "drifting", "floating", "hovering", "pooling",
    "soaking", "melting", "fading", "glowing", "gleaming", "shimmering", "twining", "spiraling",
    "branching", "arching", "swaying", "reaching", "climbing", "crawling", "settling", "weathering",
    "softening", "hardening", "brightening", "darkening", "warming", "cooling", "soothing", "stilling",
    "quieting", "calming", "stretching", "spreading", "deepening", "broadening", "narrowing", "lengthening",
    "shortening", "loosening", "anchoring", "grounding", "sinking", "rising", "waxing", "waning",
    "draining", "filling", "balancing", "centering", "resting", "waiting", "blooming", "rippling",
    "trickling", "flowing", "pouring", "streaming", "raining", "snowing", "freezing", "thawing",
    "covering", "uncovering", "revealing", "veiling", "shadowing", "clearing", "opening", "closing",
    "forming", "dissolving", "returning", "pausing", "watching", "listening", "wandering", "roaming",
    "meandering", "lingering", "drifting", "spanning" ]

def ADJECTIVES_3 : List String := [
    "rocky", "sandy", "brambly", "thorny", "grassy", "shadowy", "foggy", "hazy",
    "smoky", "icy", "glassy", "pebbly", "knotted", "twisted", "woven", "sinuous",
    "undulating", "layered", "banded", "ringed", "speckled", "spotted", "flecked", "pitted",
    "creased", "furrowed", "etched", "veined", "ridged", "weathered", "ancient", "primordial",
    "eldest", "immemorial", "eternal", "boundless", "measureless", "endless", "infinite", "limitless",
    "unfolding", "becoming", "rippling", "edging", "measuring", "mirroring", "reflected", "absorbing",
    "radiant", "gleaming", "whispering", "murmuring", "humming", "ringing", "singing", "resounding",
    "echoing", "calling", "inviting", "beckoning", "embracing", "holding", "enfolding", "surrounding",
    "cradling", "nurturing", "enclosing", "enveloping", "nesting", "harboring", "layering", "masking",
    "shading", "softening", "cooling", "warming", "freshening", "stilling", "clearing", "brightening",
    "opening", "parting", "receding", "unfolding", "arching", "curving", "rolling", "lapping",
    "lapping", "edging", "skimming", "gliding", "swaying", "shifting", "slipping", "flowing",
    "curling", "twisting", "sliding", "sloping" ]

def ADJECTIVES_4 : List String := [
    "rootless", "tangled", "knotted", "fibrous", "woody", "barky", "lichened", "weatherbeaten",
    "fissured", "cracked", "splintered", "splitting", "shimmered", "matte", "muted", "dimmed",
    "smoothed", "polished", "tarnished", "blurred", "softened", "washed", "waterworn", "windworn",
    "sunworn", "faded", "bleached", "paled", "brushed", "dappled", "mottled", "shadowed",
    "deepset", "set", "imbued", "infused", "drenched", "soaked", "moistened", "parched",
    "crisp", "brittle", "papery", "grainy", "sandy", "gritty", "chalky", "clayey",
    "pebbled", "stubbled", "graveled", "silted", "tilled", "furrowed", "plowed", "seeded",
    "sprouted", "leafed", "flowered", "fruited", "barebranched", "barelimbed", "budding", "bloomed",
    "fallen", "scattered", "strewn", "littered", "layered", "blanketed", "mantled", "veiled",
    "hooded", "capped", "crowned", "canopied", "vaulted", "pillared", "terraced", "tiered",
    "winding", "meandering", "branching", "forking", "splitting", "braided", "laced", "threaded",
    "filigreed", "etched", "grooved", "furrowed", "pitted", "scored", "scratched", "marred",
    "scarred", "traced", "lined", "wrinkled" ]

def ADJECTIVES_5 : List String := [
    "tumbled", "layering", "sheened", "singular", "ancient", "timely", "patient", "seasoning",
    "yielding", "pressing", "shimmering", "wavering", "burgeoning", "cresting", "soaring", "plunging",
    "suspended", "hovering", "wandering", "migrating", "seasonal", "evanescent", "delicate", "subdued",
    "drawn", "pale", "vivid", "fleeting", "vanishing", "gleamed", "flourished", "hidden",
    "revealed", "masked", "blended", "fused", "joined", "seamed", "woven", "braided",
    "rolling", "collapsing", "rising", "settled", "layered", "pooled", "spread", "arching",
    "trembling", "quivering", "drifting", "glowing", "yielded", "held", "carried", "borne",
    "drawn", "touched", "kissed", "brushed", "drenched", "dappled", "painted", "cast",
    "lifted", "turned", "folded", "shaded", "softened", "veiled", "borne", "whispered",
    "sounded", "carried", "suspended", "floating", "eddying", "circling", "ringing", "pealing",
    "glinting", "gleaming", "flashing", "glistening", "tinted", "smudged", "layered", "frosted",
    "iced", "melted", "flowed", "poured", "streamed", "widened", "narrowed", "cleansed",
    "smoothed", "sanded", "grained", "carved" ]

def NOUNS_0 : List String := [
    "air", "arc", "bank", "beam", "bell", "bough", "breeze", "brook",
    "bud", "burl", "cairn", "calm", "canopy", "cave", "chime", "cliff",
    "cloud", "coil", "crag", "crest", "curve", "current", "dawn", "day",
    "dew", "drift", "drop", "dusk", "dust", "earth", "echo", "field",
    "fire", "flake", "flow", "fog", "fold", "foot", "form", "frost",
    "glade", "gleam", "grain", "grove", "gust", "haze", "hill", "hollow",
    "hue", "isle", "knot", "lake", "leaf", "light", "line", "moss",
    "mist", "moon", "mote", "mountain", "mud", "night", "noise", "path",
    "peak", "pebble", "petal", "plain", "pool", "pulse", "rain", "reed",
    "rest", "ridge", "rift", "ring", "rise", "rock", "root", "scale",
    "seed", "shade", "shadow", "shape", "shell", "shine", "shoot", "shore",
    "sky", "slip", "smoke", "snow", "soil", "song", "spark", "spine",
    "spring", "star", "stem", "step", "stone", "stream", "stripe", "sun",
    "tide", "time", "tone", "track", "trail", "tree", "trunk", "valley",
    "vein", "view", "vine", "voice", "wake", "wave", "way", "whirl",
    "whisper", "wind", "wing", "wood", "word", "wreath", "zenith" ]

def NOUNS_1 : List String := [
    "ash", "bark", "beam", "birch", "blossom", "bloom", "bolt", "branch",
    "brim", "bur", "call", "cane", "cedar", "clay", "clearing", "climb",
    "cone", "cover", "crust", "dell", "dome", "echo", "ember", "fan",
    "fern", "fiber", "firefly", "flare", "flow", "foam", "fold", "fume",
    "furrow", "glimmer", "groove", "gust", "hollow", "horizon", "hum", "hush",
    "ivy", "lark", "layer", "limb", "lily", "loam", "loop", "mire",
    "murmur", "mycelium", "nest", "net", "niche", "nook", "oak", "omen",
    "overhang", "palm", "patch", "peak", "perch", "pine", "pitch", "plane",
    "pond", "print", "pulse", "quartz", "quiet", "reach", "reed", "rift",
    "rill", "ring", "rip", "rise", "rock", "root", "rush", "sap",
    "scatter", "scuff", "scrub", "shade", "shaft", "sheen", "shoot", "shrub",
    "silk", "silt", "slope", "smudge", "solstice", "spark", "speck", "spore",
    "spray", "sprig", "spur", "stack", "stone", "strand", "stream", "stump",
    "swirl", "thatch", "thicket", "thorn", "thread", "thrill", "thrush", "thrum",
    "thud", "thump", "tilt", "tint", "tongue", "track", "trickle", "twig",
    "vault", "veil", "verge", "vine", "vista", "wade", "warp", "wash",
    "way", "whirl", "willow", "wink", "wisp", "wither", "wreath", "yew" ]

def NOUNS_2 : List String := [
    "ant", "ape", "bee", "beetle", "beet", "berry", "bison", "boar",
    "branch", "briar", "bull", "burrow", "carp", "cat", "cedar", "clover",
    "cockle", "conch", "crane", "creek", "cress", "crow", "deer", "dog",
    "dove", "eel", "egret", "elm", "falcon", "fern", "finch", "fish",
    "flint", "fowl", "fox", "frog", "furl", "goat", "goose", "hare",
    "hawk", "heron", "ibis", "jay", "koi", "leaflet", "lichen", "lotus",
    "magnet", "moth", "mulch", "mussel", "nettle", "newt", "nut", "oak",
    "ox", "owl", "peach", "pearl", "peril", "pine", "plum", "pond",
    "poppy", "quail", "quartz", "quill", "raven", "reed", "reptile", "robin",
    "rootlet", "rush", "rye", "salmon", "scale", "scar", "seal", "seedling",
    "shell", "shrub", "sleet", "snail", "snake", "sparrow", "spine", "squid",
    "stonecrop", "stork", "streamlet", "swan", "swift", "thorn", "thrush", "thunder",
    "tidepool", "toad", "topaz", "trail", "trickle", "trunk", "tusk", "vineyard",
    "vulture", "walnut", "wavelet", "weasel", "weed", "weft", "whale", "wheat",
    "wren", "zephyr", "amber", "arc", "ash", "balm", "basin", "beam",
    "bristle", "bur", "cairn", "cavern", "clod", "coil", "curl", "dune",
    "eddy", "flare", "fold", "fountain", "grove", "hollow", "jet", "lode",
    "mantle", "marsh", "niche", "pinnacle", "quartz", "rapids", "reef", "rootlet",
    "runoff", "rushes", "sapling", "shoal", "slope", "spume", "surf" ]

def NOUNS_3 : List String := [
    "alder", "anemone", "ashlar", "asp", "atoll", "aura", "avalanche", "bamboo",
    "bank", "banyan", "basalt", "bay", "beacon", "beam", "birch", "bloom",
    "bluff", "bog", "boulder", "breeze", "briar", "brine", "brooklet", "cactus",
    "cascade", "cedar", "chasm", "cliffside", "clover", "cobble", "coral", "cotton",
    "crag", "cranny", "crevice", "crook", "crystal", "currant", "dahlia", "dam",
    "delta", "depth", "dove", "driftwood", "eddy", "elm", "elmwood", "fennel",
    "fernwood", "fjord", "flint", "fogbank", "fungus", "garden", "glen", "granite",
    "grove", "gull", "gypsum", "hazel", "heather", "hemlock", "herb", "holloway",
    "horizon", "ice", "iris", "jasmine", "juniper", "kale", "kettle", "lagoon",
    "lichen", "limestone", "lotus", "magnolia", "mallow", "marsh", "mire", "mistletoe",
    "moraine", "mosswood", "myrtle", "nebula", "orchid", "osprey", "palm", "pansy",
    "papyrus", "pasture", "peak", "peony", "pinewood", "pinnacle", "poplar", "prairie",
    "puff", "reedbed", "relic", "ridge", "rill", "riprap", "river", "rosette",
    "rushwood", "sage", "sedge", "shard", "sheaf", "sleet", "slough", "snag",
    "snowbank", "solstice", "spindle", "spume", "steeple", "steppe", "stubble", "sundew",
    "swale", "sycamore", "tam", "tarn", "thistle", "torrent", "trickle", "tundra",
    "understory", "upland", "valley", "vernal", "vetch", "vista", "waterfall", "wattle",
    "wave", "willowherb", "woodland", "zinnia" ]

def ADJECTIVES_unsorted : List String :=
  ADJECTIVES_0 ++ ADJECTIVES_1 ++ ADJECTIVES_2 ++ ADJECTIVES_3 ++ ADJECTIVES_4 ++ ADJECTIVES_5

def NOUNS_unsorted : List String :=
  NOUNS_0 ++ NOUNS_1 ++ NOUNS_2 ++ NOUNS_3


/-- Stable insertion of a word into a length-sorted list: walk past strictly
shorter words, so that a word of equal length lands before the ones already
present (which originally came later). -/
def insertByLen (x : String) : List String → List String
  | [] => [x]
  | y :: ys => if y.length < x.length then y :: insertByLen x ys else x :: y :: ys

/-- Stable sort by word length, the effect of `list.sort(key=lambda x: len(x))`. -/
def sortByLen : List String → List String
  | [] => []
  | x :: xs => insertByLen x (sortByLen xs)

/-- The list `ADJECTIVES` after the in-place stable sort by length
(source line 255). -/
def ADJECTIVES : List String := sortByLen ADJECTIVES_unsorted

/-- The list `NOUNS` after the in-place stable sort by length (source line 256). -/
def NOUNS : List String := sortByLen NOUNS_unsorted

/-- Entry `ADJECTIVES_LENGTHS[l] = sum(1 for a in ADJECTIVES if len(a) <= l)`
(source line 257; the Python dict has keys 3..9 and is only consulted with the
normalized `max_item_chars`, which lies in that range whenever it is positive). -/
def ADJECTIVES_LENGTHS (l : Int) : Nat :=
  ADJECTIVES.countP (fun a => decide ((a.length : Int) ≤ l))

/-- Entry `NOUNS_LENGTHS[l] = sum(1 for a in NOUNS if len(a) <= l)` (line 258). -/
def NOUNS_LENGTHS (l : Int) : Nat :=
  NOUNS.countP (fun a => decide ((a.length : Int) ≤ l))

/-- Python objects accepted by the module: `int` or `str` (in Python 3 a
`u"..."` literal is the same object as the plain `str`). -/
inductive Obj where
  | int (n : Int)
  | str (s : String)
deriving DecidableEq

/-- Step `obj = str(obj)` for integers (source lines 297-298). -/
def objText : Obj → String
  | .int n => toString n
  | .str s => s

/-- Step `obj = obj.encode('utf-8')` (source lines 300-301), applied after the
numeric normalization. -/
def objBytes (o : Obj) : ByteArray := (objText o).toUTF8

/-- Abstraction of one `hashlib` algorithm: the map from the hashed bytes to
`int(hh.hexdigest(), 16)`, the digest read as a big-endian unsigned integer. -/
def HashFn : Type := ByteArray → Nat

/-- Abstraction of `hashlib.new`: a table of available algorithms; `none`
models the `ValueError` raised for an unsupported algorithm name. -/
def AlgoTable : Type := String → Option HashFn

/-- Constant multiplier applied to the digest at source line 305. -/
def PRIME_FACTOR : Nat := 36413321723440003717

/-- Normalization of `max_item_chars` (source lines 279-282): a positive value
below 3 is raised to 3, and a value above 9 is treated as "no limit" (0). -/
def normMaxChars (max_item_chars : Int) : Int :=
  let mc1 := if 0 < max_item_chars ∧ max_item_chars < 3 then 3 else max_item_chars
  if 9 < mc1 then 0 else mc1

/-- The `particles` list of word lists (source lines 285-288): the noun list
first, then `adjectives` copies of the adjective list; when the normalized
`max_item_chars` is positive every list is cut down to its words of at most
that many characters.  `range(0, adjectives)` is empty for a negative count,
which `Int.toNat` reproduces. -/
def particlesFor (adjectives : Int) (max_item_chars : Int) : List (List String) :=
  let mc := normMaxChars max_item_chars
  if 0 < mc then
    NOUNS.take (NOUNS_LENGTHS mc) ::
      List.replicate adjectives.toNat (ADJECTIVES.take (ADJECTIVES_LENGTHS mc))
  else
    NOUNS :: List.replicate adjectives.toNat ADJECTIVES

/-- Value `total_words = functools.reduce(lambda a, b: a * b, [len(p) for p in
particles], 1)` (source line 290). -/
def totalWords (adjectives : Int) (max_item_chars : Int) : Nat :=
  ((particlesFor adjectives max_item_chars).map List.length).foldl (fun a b => a * b) 1

/-- The selection loop of source lines 309-312: for each particle list take the
word at `index % len(p)` and divide `index` by `len(p)`.  The division models
the intended exact floor division (see the file comment on `int(index / len(p))`).
The `getD` default is never used: every particle list is nonempty. -/
def selectParticles : List (List String) → Nat → List String
  | [], _ => []
  | p :: ps, index => p.getD (index % p.length) "" :: selectParticles ps (index / p.length)

/-- Embedding of `codenamize_particles` (source lines 261-316).  The digest
lookup happens only on the non-`None` path, after the space-size early return,
exactly as in the source. -/
def codenamize_particles (algos : AlgoTable) (obj : Option Obj) (adjectives : Int)
    (max_item_chars : Int) (hash_algo : String) : Except Unit (Nat ⊕ List String) :=
  let particles := particlesFor adjectives max_item_chars
  let total_words := (particles.map List.length).foldl (fun a b => a * b) 1
  match obj with
  | none => .ok (.inl total_words)
  | some o =>
    match algos hash_algo with
    | none => .error ()
    | some h =>
      let obj_hash := h (objBytes o) * PRIME_FACTOR
      let index := obj_hash % total_words
      .ok (.inr (selectParticles particles index).reverse)

/-- Embedding of `codenamize_space` (source lines 319-324). -/
def codenamize_space (algos : AlgoTable) (adjectives : Int) (max_item_chars : Int)
    (hash_algo : String) : Except Unit (Nat ⊕ List String) :=
  codenamize_particles algos none adjectives max_item_chars hash_algo

/-- Step `p[0].upper() + p[1:]` (source line 348); the particle words are
nonempty ASCII, for which `Char.toUpper` matches `str.upper`. -/
def capitalizeWord (p : String) : String :=
  match p.data with
  | [] => ""
  | c :: cs => String.mk (c.toUpper :: cs)

/-- Embedding of `codenamize` (source lines 327-352) for a non-`None` object.
The `.inl` branch is unreachable: with an object present, `codenamize_particles`
always returns a word list (on it the Python code would raise a `TypeError`
when joining, hence `.error`). -/
def codenamize (algos : AlgoTable) (obj : Obj) (adjectives : Int) (max_item_chars : Int)
    (join : Option String) (capitalize : Bool) (hash_algo : String) : Except Unit String :=
  match codenamize_particles algos (some obj) adjectives max_item_chars hash_algo with
  | .error e => .error e
  | .ok (.inl _) => .error ()
  | .ok (.inr codename_particles) =>
    let j := match join with | none => "" | some s => s
    let parts := if capitalize then codename_particles.map capitalizeWord
                 else codename_particles
    .ok (String.intercalate j parts)

/-- Effective noun list after normalization and slicing, the first element of
`particles`. -/
def effectiveNouns (max_item_chars : Int) : List String :=
  let mc := normMaxChars max_item_chars
  if 0 < mc then NOUNS.take (NOUNS_LENGTHS mc) else NOUNS

/-- Effective adjective list after normalization and slicing, replicated
`adjectives` times in `particles`. -/
def effectiveAdjectives (max_item_chars : Int) : List String :=
  let mc := normMaxChars max_item_chars
  if 0 < mc then ADJECTIVES.take (ADJECTIVES_LENGTHS mc) else ADJECTIVES

/-- Explicit form of the sorted adjective list, established by `ADJECTIVES_eq`
below (every later concrete evaluation rewrites with that equation instead of
re-running the sort in the kernel). -/
def ADJECTIVES_SORTED : List String := [
    "low", "dim", "icy", "set", "open", "soft", "vast", "calm",
    "deep", "slow", "pure", "worn", "easy", "cool", "airy", "bare",
    "late", "lean", "dewy", "hazy", "pale", "held", "cast", "iced",
    "still", "empty", "quiet", "whole", "light", "clear", "aware", "loose",
    "fresh", "plain", "faint", "lowly", "woven", "mossy", "early", "purer",
    "lower", "older", "leafy", "misty", "woody", "stony", "muddy", "windy",
    "dusty", "rocky", "sandy", "foggy", "smoky", "woven", "woody", "barky",
    "matte", "muted", "faded", "paled", "crisp", "sandy", "laced", "lined",
    "drawn", "vivid", "fused", "woven", "borne", "drawn", "borne", "simple",
    "humble", "rooted", "gentle", "subtle", "silent", "supple", "hidden", "serene",
    "tender", "folded", "modest", "honest", "sparse", "fallow", "dimlit", "spaced",
    "silted", "shaded", "veiled", "hollow", "mellow", "limber", "hidden", "latest",
    "barest", "oldest", "bright", "slower", "deeper", "softer", "vaster", "cooler",
    "warmer", "looser", "dimmed", "rising", "fading", "waning", "waxing", "rising",
    "earthy", "frosty", "cloudy", "starry", "rooted", "fading", "rising", "waxing",
    "waning", "thorny", "grassy", "glassy", "pebbly", "banded", "ringed", "pitted",
    "etched", "veined", "ridged", "eldest", "edging", "edging", "dimmed", "washed",
    "imbued", "soaked", "papery", "grainy", "gritty", "chalky", "clayey", "silted",
    "tilled", "plowed", "seeded", "leafed", "fallen", "strewn", "veiled", "hooded",
    "capped", "tiered", "etched", "pitted", "scored", "marred", "traced", "timely",
    "hidden", "masked", "joined", "seamed", "rising", "pooled", "spread", "kissed",
    "lifted", "turned", "folded", "shaded", "veiled", "tinted", "melted", "flowed",
    "poured", "sanded", "carved", "flowing", "natural", "patient", "present", "rounded",
    "playful", "aligned", "bending", "unbound", "ancient", "letting", "swaying", "distant",
    "willing", "lowborn", "moonlit", "slender", "untamed", "cracked", "resting", "soothed",
    "dawnlit", "settled", "leafing", "gentled", "resting", "soothed", "settled", "deepest",
    "softest", "cooling", "warming", "clearer", "lighter", "emptier", "quieter", "simpler",
    "broader", "lighter", "gentler", "younger", "rooting", "bending", "flowing", "dimming",
    "warming", "cooling", "opening", "closing", "folding", "pausing", "waiting", "holding",
    "resting", "swaying", "leaning", "opening", "closing", "growing", "sinking", "filling",
    "lifting", "mending", "flowery", "budding", "curling", "pooling", "soaking", "melting",
    "glowing", "twining", "arching", "swaying", "warming", "cooling", "calming", "sinking",
    "filling", "resting", "waiting", "flowing", "pouring", "raining", "snowing", "thawing",
    "veiling", "opening", "closing", "forming", "pausing", "roaming", "brambly", "shadowy",
    "knotted", "twisted", "sinuous", "layered", "spotted", "flecked", "creased", "ancient",
    "eternal", "endless", "radiant", "humming", "ringing", "singing", "echoing", "calling",
    "holding", "nesting", "masking", "shading", "cooling", "warming", "opening", "parting",
    "arching", "curving", "rolling", "lapping", "lapping", "gliding", "swaying", "flowing",
    "curling", "sliding", "sloping", "tangled", "knotted", "fibrous", "cracked", "blurred",
    "sunworn", "brushed", "dappled", "mottled", "deepset", "infused", "parched", "brittle",
    "pebbled", "fruited", "budding", "bloomed", "layered", "mantled", "crowned", "vaulted",
    "winding", "forking", "braided", "grooved", "scarred", "tumbled", "sheened", "ancient",
    "patient", "soaring", "subdued", "gleamed", "blended", "braided", "rolling", "settled",
    "layered", "arching", "glowing", "yielded", "carried", "touched", "brushed", "dappled",
    "painted", "sounded", "carried", "eddying", "ringing", "pealing", "smudged", "layered",
    "frosted", "widened", "grained", "unforced", "yielding", "grounded", "balanced", "flexible",
    "timeless", "dwelling", "fragrant", "tranquil", "gracious", "seasoned", "drifting", "watchful",
    "receding", "floating", "unsought", "gentlest", "seasonal", "spiraled", "shadowed", "pathless",
    "barefoot", "lightest", "emptiest", "earliest", "stillest", "quietest", "gentlest", "simplest",
    "shifting", "floating", "settling", "stilling", "clearing", "steadier", "smoother", "brighter",
    "settling", "drifting", "stilling", "shifting", "thinning", "clearing", "lowering", "quieting",
    "stilling", "touching", "yielding", "spanning", "hovering", "brimming", "spilling", "blooming",
    "renewing", "stilling", "stilling", "emptying", "gleaming", "clouding", "clearing", "soothing",
    "ripening", "shedding", "drooping", "drifting", "floating", "hovering", "gleaming", "reaching",
    "climbing", "crawling", "settling", "soothing", "stilling", "quieting", "draining", "blooming",
    "rippling", "freezing", "covering", "clearing", "watching", "drifting", "spanning", "speckled",
    "furrowed", "infinite", "becoming", "rippling", "gleaming", "inviting", "cradling", "layering",
    "stilling", "clearing", "receding", "skimming", "shifting", "slipping", "twisting", "rootless",
    "lichened", "fissured", "smoothed", "polished", "softened", "windworn", "bleached", "shadowed",
    "drenched", "stubbled", "graveled", "furrowed", "sprouted", "flowered", "littered", "canopied",
    "pillared", "terraced", "threaded", "furrowed", "wrinkled", "layering", "singular", "yielding",
    "pressing", "wavering", "cresting", "plunging", "hovering", "seasonal", "delicate", "fleeting",
    "revealed", "drifting", "drenched", "softened", "floating", "circling", "glinting", "gleaming",
    "flashing", "streamed", "narrowed", "cleansed", "smoothed", "returning", "wandering", "weathered",
    "welcoming", "listening", "unhurried", "breathing", "receptive", "submerged", "deepening", "softening",
    "wandering", "spreading", "wandering", "listening", "welcoming", "spreading", "loosening", "gathering",
    "softening", "breathing", "balancing", "lingering", "hollowing", "returning", "shrinking", "narrowing",
    "deepening", "anchoring", "loosening", "softening", "hardening", "shadowing", "grounding", "breathing",
    "branching", "spiraling", "branching", "softening", "hardening", "darkening", "spreading", "deepening",
    "narrowing", "loosening", "anchoring", "grounding", "balancing", "centering", "trickling", "streaming",
    "revealing", "shadowing", "returning", "listening", "wandering", "lingering", "weathered", "boundless",
    "limitless", "unfolding", "measuring", "mirroring", "reflected", "absorbing", "murmuring", "beckoning",
    "embracing", "enfolding", "nurturing", "enclosing", "harboring", "softening", "unfolding", "splitting",
    "shimmered", "tarnished", "waterworn", "moistened", "scattered", "blanketed", "branching", "splitting",
    "filigreed", "scratched", "seasoning", "suspended", "wandering", "migrating", "vanishing", "trembling",
    "quivering", "whispered", "suspended", "glimmering", "stretching", "sheltering", "broadening", "shortening",
    "shallowing", "stretching", "shimmering", "weathering", "stretching", "broadening", "shortening", "uncovering",
    "dissolving", "meandering", "undulating", "primordial", "immemorial", "whispering", "resounding", "enveloping",
    "freshening", "splintered", "barelimbed", "meandering", "shimmering", "burgeoning", "evanescent", "flourished",
    "collapsing", "glistening", "lengthening", "brightening", "lengthening", "measureless", "surrounding", "brightening",
    "barebranched", "weatherbeaten" ]

/-- Explicit form of the sorted noun list, established by `NOUNS_eq` below. -/
def NOUNS_SORTED : List String := [
    "ox", "air", "arc", "bud", "day", "dew", "fog", "hue",
    "mud", "sky", "sun", "way", "ash", "bur", "fan", "hum",
    "ivy", "net", "oak", "rip", "sap", "way", "yew", "ant",
    "ape", "bee", "cat", "dog", "eel", "elm", "fox", "jay",
    "koi", "nut", "oak", "owl", "rye", "arc", "ash", "bur",
    "jet", "asp", "bay", "bog", "dam", "elm", "ice", "tam",
    "bank", "beam", "bell", "burl", "calm", "cave", "coil", "crag",
    "dawn", "drop", "dusk", "dust", "echo", "fire", "flow", "fold",
    "foot", "form", "gust", "haze", "hill", "isle", "knot", "lake",
    "leaf", "line", "moss", "mist", "moon", "mote", "path", "peak",
    "pool", "rain", "reed", "rest", "rift", "ring", "rise", "rock",
    "root", "seed", "slip", "snow", "soil", "song", "star", "stem",
    "step", "tide", "time", "tone", "tree", "vein", "view", "vine",
    "wake", "wave", "wind", "wing", "wood", "word", "bark", "beam",
    "bolt", "brim", "call", "cane", "clay", "cone", "dell", "dome",
    "echo", "fern", "flow", "foam", "fold", "fume", "gust", "hush",
    "lark", "limb", "lily", "loam", "loop", "mire", "nest", "nook",
    "omen", "palm", "peak", "pine", "pond", "reed", "rift", "rill",
    "ring", "rise", "rock", "root", "rush", "silk", "silt", "spur",
    "thud", "tilt", "tint", "twig", "veil", "vine", "wade", "warp",
    "wash", "wink", "wisp", "beet", "boar", "bull", "carp", "crow",
    "deer", "dove", "fern", "fish", "fowl", "frog", "furl", "goat",
    "hare", "hawk", "ibis", "moth", "newt", "pine", "plum", "pond",
    "reed", "rush", "scar", "seal", "swan", "toad", "tusk", "weed",
    "weft", "wren", "balm", "beam", "clod", "coil", "curl", "dune",
    "eddy", "fold", "lode", "reef", "surf", "aura", "bank", "beam",
    "crag", "dove", "eddy", "glen", "gull", "herb", "iris", "kale",
    "mire", "palm", "peak", "puff", "rill", "sage", "snag", "tarn",
    "wave", "bough", "brook", "cairn", "chime", "cliff", "cloud", "crest",
    "curve", "drift", "earth", "field", "flake", "frost", "glade", "gleam",
    "grain", "grove", "light", "night", "noise", "petal", "plain", "pulse",
    "ridge", "scale", "shade", "shape", "shell", "shine", "shoot", "shore",
    "smoke", "spark", "spine", "stone", "track", "trail", "trunk", "voice",
    "whirl", "birch", "bloom", "cedar", "climb", "cover", "crust", "ember",
    "fiber", "flare", "layer", "niche", "patch", "perch", "pitch", "plane",
    "print", "pulse", "quiet", "reach", "scuff", "scrub", "shade", "shaft",
    "sheen", "shoot", "shrub", "slope", "spark", "speck", "spore", "spray",
    "sprig", "stack", "stone", "stump", "swirl", "thorn", "thrum", "thump",
    "track", "vault", "verge", "vista", "whirl", "berry", "bison", "briar",
    "cedar", "conch", "crane", "creek", "cress", "egret", "finch", "flint",
    "goose", "heron", "lotus", "mulch", "peach", "pearl", "peril", "poppy",
    "quail", "quill", "raven", "robin", "scale", "shell", "shrub", "sleet",
    "snail", "snake", "spine", "squid", "stork", "swift", "thorn", "topaz",
    "trail", "trunk", "whale", "wheat", "amber", "basin", "cairn", "flare",
    "grove", "marsh", "niche", "shoal", "slope", "spume", "alder", "atoll",
    "birch", "bloom", "bluff", "briar", "brine", "cedar", "chasm", "coral",
    "crook", "delta", "depth", "fjord", "flint", "grove", "hazel", "lotus",
    "marsh", "pansy", "peony", "relic", "ridge", "river", "sedge", "shard",
    "sheaf", "sleet", "spume", "swale", "vetch", "vista", "breeze", "canopy",
    "hollow", "pebble", "shadow", "spring", "stream", "stripe", "valley", "wreath",
    "zenith", "branch", "furrow", "groove", "hollow", "murmur", "quartz", "smudge",
    "strand", "stream", "thatch", "thread", "thrill", "thrush", "tongue", "willow",
    "wither", "wreath", "beetle", "branch", "burrow", "clover", "cockle", "falcon",
    "lichen", "magnet", "mussel", "nettle", "quartz", "salmon", "thrush", "walnut",
    "weasel", "zephyr", "cavern", "hollow", "mantle", "quartz", "rapids", "runoff",
    "rushes", "ashlar", "bamboo", "banyan", "basalt", "beacon", "breeze", "cactus",
    "clover", "cobble", "cotton", "cranny", "dahlia", "fennel", "fungus", "garden",
    "gypsum", "kettle", "lagoon", "lichen", "mallow", "myrtle", "nebula", "orchid",
    "osprey", "poplar", "riprap", "slough", "steppe", "sundew", "tundra", "upland",
    "valley", "vernal", "wattle", "zinnia", "current", "whisper", "blossom", "firefly",
    "glimmer", "horizon", "scatter", "thicket", "trickle", "leaflet", "reptile", "rootlet",
    "sparrow", "thunder", "trickle", "vulture", "wavelet", "bristle", "rootlet", "sapling",
    "anemone", "boulder", "cascade", "crevice", "crystal", "currant", "elmwood", "fogbank",
    "granite", "heather", "hemlock", "horizon", "jasmine", "juniper", "moraine", "papyrus",
    "pasture", "prairie", "reedbed", "rosette", "spindle", "steeple", "stubble", "thistle",
    "torrent", "trickle", "mountain", "clearing", "mycelium", "overhang", "solstice", "seedling",
    "tidepool", "vineyard", "fountain", "pinnacle", "brooklet", "fernwood", "holloway", "magnolia",
    "mosswood", "pinewood", "pinnacle", "rushwood", "snowbank", "solstice", "sycamore", "woodland",
    "stonecrop", "streamlet", "avalanche", "cliffside", "driftwood", "limestone", "mistletoe", "waterfall",
    "understory", "willowherb" ]

set_option maxRecDepth 40000 in
/-- Kernel-checked evaluation of the stable sort of the adjective list. -/
theorem ADJECTIVES_eq : ADJECTIVES = ADJECTIVES_SORTED := by decide

set_option maxRecDepth 40000 in
/-- Kernel-checked evaluation of the stable sort of the noun list. -/
theorem NOUNS_eq : NOUNS = NOUNS_SORTED := by decide

/-! ## Helper lemmas -/

theorem foldl_mul_eq_prod (l : List Nat) : l.foldl (fun a b => a * b) 1 = l.prod :=
  List.prod_eq_foldl.symm

theorem particlesFor_eq (adjectives max_item_chars : Int) :
    particlesFor adjectives max_item_chars =
      effectiveNouns max_item_chars ::
        List.replicate adjectives.toNat (effectiveAdjectives max_item_chars) := by
  simp only [particlesFor, effectiveNouns, effectiveAdjectives]
  split <;> rfl

theorem prodLens_cons_rep (ns adjs : List String) (k : Nat) :
    ((ns :: List.replicate k adjs).map List.length).prod =
      ns.length * adjs.length ^ k := by
  simp [List.map_replicate, List.prod_replicate]

theorem totalWords_eq (adjectives max_item_chars : Int) :
    totalWords adjectives max_item_chars =
      (effectiveNouns max_item_chars).length *
        (effectiveAdjectives max_item_chars).length ^ adjectives.toNat := by
  rw [totalWords, foldl_mul_eq_prod, particlesFor_eq, prodLens_cons_rep]

theorem selectParticles_length (ps : List (List String)) (i : Nat) :
    (selectParticles ps i).length = ps.length := by
  induction ps generalizing i with
  | nil => rfl
  | cons p ps ih => simp [selectParticles, ih]

theorem selectParticles_mod (ps : List (List String)) (x : Nat) :
    selectParticles ps (x % (ps.map List.length).prod) = selectParticles ps x := by
  induction ps generalizing x with
  | nil => rfl
  | cons p ps ih =>
    simp only [selectParticles, List.map_cons, List.prod_cons]
    rw [Nat.mod_mod_of_dvd x (Nat.dvd_mul_right p.length (ps.map List.length).prod),
      Nat.mod_mul_right_div_self, ih]

theorem selectParticles_append (ps qs : List (List String)) (x : Nat) :
    selectParticles (ps ++ qs) x =
      selectParticles ps x ++ selectParticles qs (x / (ps.map List.length).prod) := by
  induction ps generalizing x with
  | nil => simp [selectParticles]
  | cons p ps ih =>
    simp only [List.cons_append, selectParticles, List.map_cons, List.prod_cons, List.append_eq,
      List.cons_inj_right]
    rw [ih, Nat.div_div_eq_div_mul]

theorem selectParticles_mem (ps : List (List String)) (hne : ∀ p ∈ ps, p ≠ []) (i : Nat) :
    ∀ w ∈ selectParticles ps i, ∃ p ∈ ps, w ∈ p := by
  induction ps generalizing i with
  | nil => intro w hw; cases hw
  | cons p ps ih =>
    intro w hw
    rcases hw with _ | ⟨_, hw⟩
    · refine ⟨p, List.mem_cons_self p ps, ?_⟩
      have hp : p ≠ [] := hne p (List.mem_cons_self p ps)
      have hlen : i % p.length < p.length :=
        Nat.mod_lt _ (List.length_pos.mpr hp)
      rw [List.getD_eq_getElem?_getD, List.getElem?_eq_getElem hlen]
      exact List.getElem_mem hlen
    · obtain ⟨q, hq, hwq⟩ := ih (fun q hq => hne q (List.mem_cons_of_mem p hq)) _ w hw
      exact ⟨q, List.mem_cons_of_mem p hq, hwq⟩

theorem intercalate_go_append (s : String) :
    ∀ (as : List String) (a b : String),
      String.intercalate.go (a ++ b) s as = a ++ String.intercalate.go b s as := by
  intro as
  induction as with
  | nil => intro a b; rfl
  | cons c cs ih =>
    intro a b
    show String.intercalate.go (a ++ b ++ s ++ c) s cs = a ++ String.intercalate.go (b ++ s ++ c) s cs
    rw [String.append_assoc a b s, String.append_assoc a (b ++ s) c, ih]

theorem intercalate_cons_cons (s a b : String) (l : List String) :
    String.intercalate s (a :: b :: l) = a ++ s ++ String.intercalate s (b :: l) := by
  show String.intercalate.go a s (b :: l) = a ++ s ++ String.intercalate.go b s l
  show String.intercalate.go (a ++ s ++ b) s l = a ++ s ++ String.intercalate.go b s l
  rw [intercalate_go_append]

theorem intercalate_cons_of_ne_nil (s a : String) (l : List String) (h : l ≠ []) :
    String.intercalate s (a :: l) = a ++ s ++ String.intercalate s l := by
  cases l with
  | nil => exact absurd rfl h
  | cons b bs => exact intercalate_cons_cons s a b bs

theorem normMaxChars_range (mc : Int) :
    normMaxChars mc ≤ 0 ∨ (3 ≤ normMaxChars mc ∧ normMaxChars mc ≤ 9) := by
  simp only [normMaxChars]
  split <;> split <;> omega

theorem NOUNS_ne_nil : NOUNS ≠ [] := by rw [NOUNS_eq]; decide

theorem ADJECTIVES_ne_nil : ADJECTIVES ≠ [] := by rw [ADJECTIVES_eq]; decide

set_option maxRecDepth 10000 in
theorem NOUNS_LENGTHS_pos {l : Int} (h3 : 3 ≤ l) (h9 : l ≤ 9) : 0 < NOUNS_LENGTHS l := by
  rw [NOUNS_LENGTHS, NOUNS_eq]
  interval_cases l <;> decide

set_option maxRecDepth 10000 in
theorem ADJECTIVES_LENGTHS_pos {l : Int} (h3 : 3 ≤ l) (h9 : l ≤ 9) :
    0 < ADJECTIVES_LENGTHS l := by
  rw [ADJECTIVES_LENGTHS, ADJECTIVES_eq]
  interval_cases l <;> decide

theorem effectiveNouns_ne_nil (max_item_chars : Int) : effectiveNouns max_item_chars ≠ [] := by
  have hr := normMaxChars_range max_item_chars
  by_cases hpos : 0 < normMaxChars max_item_chars
  · simp only [effectiveNouns, if_pos hpos]
    intro hnil
    rcases List.take_eq_nil_iff.mp hnil with h0 | hN
    · have := NOUNS_LENGTHS_pos (l := normMaxChars max_item_chars) (by omega) (by omega)
      omega
    · exact NOUNS_ne_nil hN
  · simp only [effectiveNouns, if_neg hpos]
    exact NOUNS_ne_nil

theorem effectiveAdjectives_ne_nil (max_item_chars : Int) :
    effectiveAdjectives max_item_chars ≠ [] := by
  have hr := normMaxChars_range max_item_chars
  by_cases hpos : 0 < normMaxChars max_item_chars
  · simp only [effectiveAdjectives, if_pos hpos]
    intro hnil
    rcases List.take_eq_nil_iff.mp hnil with h0 | hA
    · have := ADJECTIVES_LENGTHS_pos (l := normMaxChars max_item_chars) (by omega) (by omega)
      omega
    · exact ADJECTIVES_ne_nil hA
  · simp only [effectiveAdjectives, if_neg hpos]
    exact ADJECTIVES_ne_nil

theorem codenamize_particles_none (algos : AlgoTable) (adjectives max_item_chars : Int)
    (name : String) :
    codenamize_particles algos none adjectives max_item_chars name =
      .ok (.inl (totalWords adjectives max_item_chars)) := rfl

theorem codenamize_particles_some (algos : AlgoTable) (o : Obj) (adjectives max_item_chars : Int)
    (name : String) (h : HashFn) (halgo : algos name = some h) :
    codenamize_particles algos (some o) adjectives max_item_chars name =
      .ok (.inr (selectParticles (particlesFor adjectives max_item_chars)
        (h (objBytes o) * PRIME_FACTOR % totalWords adjectives max_item_chars)).reverse) := by
  simp only [codenamize_particles, halgo]
  rfl

theorem codenamize_ok (algos : AlgoTable) (o : Obj) (adjectives max_item_chars : Int)
    (join : Option String) (cap : Bool) (name : String) (h : HashFn)
    (halgo : algos name = some h) :
    codenamize algos o adjectives max_item_chars join cap name =
      .ok (String.intercalate (match join with | none => "" | some s => s)
        (if cap then
          ((selectParticles (particlesFor adjectives max_item_chars)
            (h (objBytes o) * PRIME_FACTOR % totalWords adjectives max_item_chars)).reverse).map
              capitalizeWord
         else
          (selectParticles (particlesFor adjectives max_item_chars)
            (h (objBytes o) * PRIME_FACTOR % totalWords adjectives max_item_chars)).reverse)) := by
  rw [codenamize.eq_def, codenamize_particles_some algos o adjectives max_item_chars name h halgo]

theorem particlesFor_congr {m1 m2 : Int} (h : normMaxChars m1 = normMaxChars m2)
    (adjectives : Int) : particlesFor adjectives m1 = particlesFor adjectives m2 := by
  simp only [particlesFor, h]

theorem codenamize_particles_congr {m1 m2 : Int} (h : normMaxChars m1 = normMaxChars m2)
    (algos : AlgoTable) (obj : Option Obj) (adjectives : Int) (name : String) :
    codenamize_particles algos obj adjectives m1 name =
      codenamize_particles algos obj adjectives m2 name := by
  simp only [codenamize_particles, particlesFor_congr h adjectives]

/-! ## The claims -/

/-- C2: with `obj = None` the function returns the integer
`effectiveNounSize * effectiveAdjectiveSize ^ adjectives` (for `adjectives = 0`
exactly the effective noun count), and `codenamize_space` returns the same. -/
theorem c2_space_size (algos : AlgoTable) (adjectives max_item_chars : Int) (name : String)
    (ha : 0 ≤ adjectives) :
    codenamize_particles algos none adjectives max_item_chars name =
      .ok (.inl ((effectiveNouns max_item_chars).length *
        (effectiveAdjectives max_item_chars).length ^ adjectives.toNat)) ∧
    codenamize_space algos adjectives max_item_chars name =
      .ok (.inl ((effectiveNouns max_item_chars).length *
        (effectiveAdjectives max_item_chars).length ^ adjectives.toNat)) ∧
    (adjectives = 0 →
      codenamize_space algos adjectives max_item_chars name =
        .ok (.inl (effectiveNouns max_item_chars).length)) := by
  have hbase : codenamize_particles algos none adjectives max_item_chars name =
      .ok (.inl ((effectiveNouns max_item_chars).length *
        (effectiveAdjectives max_item_chars).length ^ adjectives.toNat)) := by
    rw [codenamize_particles_none, totalWords_eq]
  refine ⟨hbase, hbase, ?_⟩
  intro h0
  subst h0
  rw [show ((0 : Int).toNat = 0) from rfl, pow_zero, mul_one] at hbase
  exact hbase

/-- Witness for `c2_space_size` at `adjectives = 2`, `max_item_chars = 5`. -/
theorem c2_space_size_witness :
    (0 : Int) ≤ 2 ∧
    (codenamize_particles (fun _ => none : AlgoTable) none 2 5 "md5" =
      .ok (.inl ((effectiveNouns 5).length *
        (effectiveAdjectives 5).length ^ (2 : Int).toNat)) ∧
    codenamize_space (fun _ => none : AlgoTable) 2 5 "md5" =
      .ok (.inl ((effectiveNouns 5).length *
        (effectiveAdjectives 5).length ^ (2 : Int).toNat)) ∧
    ((2 : Int) = 0 →
      codenamize_space (fun _ => none : AlgoTable) 2 5 "md5" =
        .ok (.inl (effectiveNouns 5).length))) :=
  ⟨by decide, c2_space_size (fun _ => none : AlgoTable) 2 5 "md5" (by decide)⟩

/-- C5: a numeric object is first converted to its decimal string and then
UTF-8 encoded, so an `int` and its decimal `str` always codenamize alike. -/
theorem c5_numeric_equivalence (algos : AlgoTable) (n : Int)
    (adjectives max_item_chars : Int) (join : Option String) (cap : Bool) (name : String) :
    codenamize algos (Obj.int n) adjectives max_item_chars join cap name =
      codenamize algos (Obj.str (toString n)) adjectives max_item_chars join cap name ∧
    objBytes (Obj.int n) = (toString n).toUTF8 :=
  ⟨rfl, rfl⟩

/-- C6: a character ceiling of 1 behaves as 3 and a ceiling of 10 behaves as 0
(unlimited), both for the space size and for word selection. -/
theorem c6_ceiling_normalization (algos : AlgoTable) (adjectives : Int) (obj : Option Obj)
    (name : String) :
    codenamize_particles algos obj adjectives 1 name =
      codenamize_particles algos obj adjectives 3 name ∧
    codenamize_particles algos obj adjectives 10 name =
      codenamize_particles algos obj adjectives 0 name ∧
    codenamize_space algos adjectives 1 name = codenamize_space algos adjectives 3 name ∧
    codenamize_space algos adjectives 10 name = codenamize_space algos adjectives 0 name :=
  ⟨codenamize_particles_congr (by decide) algos obj adjectives name,
   codenamize_particles_congr (by decide) algos obj adjectives name,
   codenamize_particles_congr (by decide) algos none adjectives name,
   codenamize_particles_congr (by decide) algos none adjectives name⟩

/-- C9: the space size does not depend on the hash algorithm name and its
computation cannot fail even for an unknown name, because the digest lookup
happens only after the `obj is None` early return. -/
theorem c9_space_ignores_hash (algos : AlgoTable) (adjectives max_item_chars : Int)
    (h1 h2 : String) :
    codenamize_space algos adjectives max_item_chars h1 =
      codenamize_space algos adjectives max_item_chars h2 ∧
    codenamize_space algos adjectives max_item_chars h1 =
      .ok (.inl (totalWords adjectives max_item_chars)) :=
  ⟨rfl, rfl⟩

/-- C10: a negative adjective count behaves exactly like `adjectives = 0`:
no error, a single-word (noun only) list for a present object, and the
noun-only space size for `None`. -/
theorem c10_negative_adjectives (algos : AlgoTable) (obj : Option Obj)
    (adjectives max_item_chars : Int) (name : String) (hneg : adjectives < 0) :
    codenamize_particles algos obj adjectives max_item_chars name =
      codenamize_particles algos obj 0 max_item_chars name ∧
    (obj = none →
      codenamize_particles algos obj adjectives max_item_chars name =
        .ok (.inl (effectiveNouns max_item_chars).length)) ∧
    (∀ o h, obj = some o → algos name = some h →
      ∃ w, codenamize_particles algos obj adjectives max_item_chars name = .ok (.inr [w])) := by
  have ht : adjectives.toNat = 0 := Int.toNat_of_nonpos (le_of_lt hneg)
  have hp : particlesFor adjectives max_item_chars = particlesFor 0 max_item_chars := by
    rw [particlesFor_eq, particlesFor_eq, ht]
    rfl
  have htw : totalWords adjectives max_item_chars = totalWords 0 max_item_chars := by
    rw [totalWords, totalWords, hp]
  refine ⟨by simp only [codenamize_particles, hp], ?_, ?_⟩
  · intro hnone
    subst hnone
    rw [codenamize_particles_none, totalWords_eq, ht, pow_zero, mul_one]
  · intro o h hobj halgo
    subst hobj
    rw [codenamize_particles_some algos o adjectives max_item_chars name h halgo,
      particlesFor_eq, ht]
    exact ⟨_, rfl⟩

/-- Witness for `c10_negative_adjectives` at `adjectives = -1`. -/
theorem c10_negative_adjectives_witness :
    (-1 : Int) < 0 ∧
    (codenamize_particles (fun _ => none : AlgoTable) none (-1) 0 "md5" =
      codenamize_particles (fun _ => none : AlgoTable) none 0 0 "md5" ∧
    ((none : Option Obj) = none →
      codenamize_particles (fun _ => none : AlgoTable) none (-1) 0 "md5" =
        .ok (.inl (effectiveNouns 0).length)) ∧
    (∀ o h, (none : Option Obj) = some o → (fun _ => none : AlgoTable) "md5" = some h →
      ∃ w, codenamize_particles (fun _ => none : AlgoTable) none (-1) 0 "md5" =
        .ok (.inr [w]))) :=
  ⟨by decide, c10_negative_adjectives (fun _ => none : AlgoTable) none (-1) 0 "md5" (by decide)⟩

/-- C1: with an object present, the returned value is the reverse of the
mixed-radix decode (noun list first, then the adjective lists) of
`digest * 36413321723440003717 mod totalWords`, a list of exactly
`adjectives + 1` words ending in the selected noun.  The embedding reads
`int(index / len(p))` as exact floor division, the documented intent (see the
file header: for at least 5 adjectives without a character limit the Python 3
float division deviates from this). -/
theorem c1_mixed_radix_decode (algos : AlgoTable) (name : String) (h : HashFn)
    (halgo : algos name = some h) (o : Obj) (adjectives max_item_chars : Int)
    (ha : 0 ≤ adjectives) :
    ∃ ws : List String,
      codenamize_particles algos (some o) adjectives max_item_chars name = .ok (.inr ws) ∧
      ws = (selectParticles (particlesFor adjectives max_item_chars)
        (h (objBytes o) * PRIME_FACTOR % totalWords adjectives max_item_chars)).reverse ∧
      (ws.length : Int) = adjectives + 1 ∧
      ws.getLast? = some ((effectiveNouns max_item_chars).getD
        (h (objBytes o) * PRIME_FACTOR % totalWords adjectives max_item_chars %
          (effectiveNouns max_item_chars).length) "") := by
  refine ⟨_, codenamize_particles_some algos o adjectives max_item_chars name h halgo,
    rfl, ?_, ?_⟩
  · have htn : (adjectives.toNat : Int) = adjectives := Int.toNat_of_nonneg ha
    rw [List.length_reverse, selectParticles_length, particlesFor_eq]
    simp only [List.length_cons, List.length_replicate]
    omega
  · rw [List.getLast?_eq_head?_reverse, List.reverse_reverse, particlesFor_eq]
    rfl

/-- Concrete algorithm table used by the witnesses: only "md5" is available,
with the (mock) constant digest function `fun _ => d`. -/
def constTable (d : Nat) : AlgoTable :=
  fun s => if s = "md5" then some (fun _ => d) else none

set_option maxRecDepth 100000 in
/-- Witness for `c1_mixed_radix_decode` at one adjective, ceiling 5. -/
theorem c1_mixed_radix_decode_witness :
    constTable 7 "md5" = some (fun _ => 7) ∧ (0 : Int) ≤ 1 ∧
    (∃ ws : List String,
      codenamize_particles (constTable 7) (some (Obj.str "x")) 1 5 "md5" = .ok (.inr ws) ∧
      ws = (selectParticles (particlesFor 1 5)
        ((fun _ => 7 : HashFn) (objBytes (Obj.str "x")) * PRIME_FACTOR % totalWords 1 5)).reverse ∧
      (ws.length : Int) = 1 + 1 ∧
      ws.getLast? = some ((effectiveNouns 5).getD
        ((fun _ => 7 : HashFn) (objBytes (Obj.str "x")) * PRIME_FACTOR % totalWords 1 5 %
          (effectiveNouns 5).length) "")) :=
  ⟨rfl, by decide,
    c1_mixed_radix_decode (constTable 7) "md5" (fun _ => 7) rfl (Obj.str "x") 1 5 (by decide)⟩

theorem normMaxChars_5 : normMaxChars 5 = 5 := by decide

theorem effectiveNouns_5 : effectiveNouns 5 = NOUNS.take (NOUNS_LENGTHS 5) := by
  simp only [effectiveNouns, normMaxChars_5]
  rw [if_pos (by decide : (0 : Int) < 5)]

theorem effectiveAdjectives_5 : effectiveAdjectives 5 = ADJECTIVES.take (ADJECTIVES_LENGTHS 5) := by
  simp only [effectiveAdjectives, normMaxChars_5]
  rw [if_pos (by decide : (0 : Int) < 5)]

set_option maxRecDepth 10000 in
theorem effectiveNouns_len_5 : (effectiveNouns 5).length = 390 := by
  rw [effectiveNouns_5, NOUNS_LENGTHS, NOUNS_eq]
  decide

set_option maxRecDepth 10000 in
theorem effectiveAdjectives_len_5 : (effectiveAdjectives 5).length = 71 := by
  rw [effectiveAdjectives_5, ADJECTIVES_LENGTHS, ADJECTIVES_eq]
  decide

/-- C3: the actual codename space sizes for ceiling 5 with 0, 1 and 2
adjectives are 390, 27690 and 1965990 — not the 742, 241150 and 78373750
asserted by the module docstring (lines 80, 86 and 92 of the source). -/
theorem c3_space_values :
    (∀ (algos : AlgoTable) (name : String),
      codenamize_space algos 0 5 name = .ok (.inl 390) ∧
      codenamize_space algos 1 5 name = .ok (.inl 27690) ∧
      codenamize_space algos 2 5 name = .ok (.inl 1965990)) ∧
    390 ≠ 742 ∧ 27690 ≠ 241150 ∧ 1965990 ≠ 78373750 := by
  have key : ∀ a : Int, totalWords a 5 = 390 * 71 ^ a.toNat := by
    intro a
    rw [totalWords_eq, effectiveNouns_len_5, effectiveAdjectives_len_5]
  have base : ∀ (algos : AlgoTable) (a : Int) (name : String),
      codenamize_space algos a 5 name = .ok (.inl (390 * 71 ^ a.toNat)) := by
    intro algos a name
    rw [show codenamize_space algos a 5 name =
        .ok (.inl (totalWords a 5)) from rfl, key]
  refine ⟨fun algos name => ⟨?_, ?_, ?_⟩, by decide, by decide, by decide⟩
  · rw [base]; rfl
  · rw [base]; rfl
  · rw [base]; rfl

theorem totalWords_1_5 : totalWords 1 5 = 27690 := by
  rw [totalWords_eq, effectiveNouns_len_5, effectiveAdjectives_len_5]
  rfl

/-- Digest of the bytes of "100001" under md5.  Modelled from the spec: md5 is
the Python standard library's `hashlib.md5`, outside this repository; the claim
fixes `hash_algo = "md5"`, whose hexdigest for `b"100001"` is
e2a6a1ace352668000aed191a817d143, i.e. this integer. -/
def md5_digest_100001 : Nat := 301270727491450622224268211011978776899

set_option maxRecDepth 100000 in
/-- C4: the codename of 100001 (as `int` or as `str`) with one adjective and
ceiling 5 is "quiet-flare" — not the "funny-boat" that `print_test` (source
lines 374-376) and the claim assert. -/
theorem c4_100001_value (algos : AlgoTable) (h : HashFn) (halgo : algos "md5" = some h)
    (hdig : h (objBytes (Obj.int 100001)) = md5_digest_100001) :
    codenamize algos (Obj.int 100001) 1 5 (some "-") false "md5" = .ok "quiet-flare" ∧
    codenamize algos (Obj.str "100001") 1 5 (some "-") false "md5" = .ok "quiet-flare" ∧
    "quiet-flare" ≠ "funny-boat" := by
  have hob : objBytes (Obj.str "100001") = objBytes (Obj.int 100001) := by
    show ("100001" : String).toUTF8 = (toString (100001 : Int)).toUTF8
    rw [show toString (100001 : Int) = "100001" from by decide]
  have main : ∀ o : Obj, objBytes o = objBytes (Obj.int 100001) →
      codenamize algos o 1 5 (some "-") false "md5" = .ok "quiet-flare" := by
    intro o ho
    rw [codenamize_ok algos o 1 5 (some "-") false "md5" h halgo, ho, hdig]
    refine congrArg Except.ok ?_
    rw [totalWords_1_5, particlesFor_eq, effectiveNouns_5, effectiveAdjectives_5,
      NOUNS_LENGTHS, ADJECTIVES_LENGTHS, NOUNS_eq, ADJECTIVES_eq]
    decide
  exact ⟨main _ rfl, main _ hob, by decide⟩

set_option maxRecDepth 100000 in
/-- Witness for `c4_100001_value` with the digest table for "md5". -/
theorem c4_100001_value_witness :
    constTable md5_digest_100001 "md5" = some (fun _ => md5_digest_100001) ∧
    (fun _ => md5_digest_100001 : HashFn) (objBytes (Obj.int 100001)) = md5_digest_100001 ∧
    (codenamize (constTable md5_digest_100001) (Obj.int 100001) 1 5 (some "-") false "md5" =
        .ok "quiet-flare" ∧
      codenamize (constTable md5_digest_100001) (Obj.str "100001") 1 5 (some "-") false "md5" =
        .ok "quiet-flare" ∧
      "quiet-flare" ≠ "funny-boat") :=
  ⟨rfl, rfl,
    c4_100001_value (constTable md5_digest_100001) (fun _ => md5_digest_100001) rfl rfl⟩

theorem select_step (N A : List String) (H : Nat) (k : Nat) :
    selectParticles (N :: List.replicate (k + 1) A)
        (H % (N.length * A.length ^ k * A.length)) =
      selectParticles (N :: List.replicate k A) (H % (N.length * A.length ^ k)) ++
        [A.getD (H % (N.length * A.length ^ k * A.length) / (N.length * A.length ^ k) %
          A.length) ""] := by
  have hplens : ((N :: List.replicate k A).map List.length).prod = N.length * A.length ^ k :=
    prodLens_cons_rep N A k
  rw [List.replicate_succ',
    show N :: (List.replicate k A ++ [A]) = (N :: List.replicate k A) ++ [A] from rfl,
    selectParticles_append, hplens]
  congr 1
  calc
    selectParticles (N :: List.replicate k A) (H % (N.length * A.length ^ k * A.length)) =
        selectParticles (N :: List.replicate k A)
          (H % (N.length * A.length ^ k * A.length) %
            ((N :: List.replicate k A).map List.length).prod) :=
      (selectParticles_mod _ _).symm
    _ = selectParticles (N :: List.replicate k A) (H % (N.length * A.length ^ k)) := by
      rw [hplens, Nat.mod_mod_of_dvd H (Nat.dvd_mul_right _ _)]

theorem codename_step (algos : AlgoTable) (name : String) (h : HashFn)
    (halgo : algos name = some h) (o : Obj) (max_item_chars : Int)
    (join : Option String) (cap : Bool) (k : Nat) :
    ∃ u c : String,
      codenamize algos o (k : Int) max_item_chars join cap name = .ok c ∧
      codenamize algos o ((k : Int) + 1) max_item_chars join cap name = .ok (u ++ c) := by
  have hk : ((k : Int)).toNat = k := Int.toNat_ofNat k
  have hk1 : ((k : Int) + 1).toNat = k + 1 := by omega
  have e1 : particlesFor (k : Int) max_item_chars =
      effectiveNouns max_item_chars ::
        List.replicate k (effectiveAdjectives max_item_chars) := by
    rw [particlesFor_eq, hk]
  have e2 : particlesFor ((k : Int) + 1) max_item_chars =
      effectiveNouns max_item_chars ::
        List.replicate (k + 1) (effectiveAdjectives max_item_chars) := by
    rw [particlesFor_eq, hk1]
  have t1 : totalWords (k : Int) max_item_chars =
      (effectiveNouns max_item_chars).length *
        (effectiveAdjectives max_item_chars).length ^ k := by
    rw [totalWords_eq, hk]
  have t2 : totalWords ((k : Int) + 1) max_item_chars =
      (effectiveNouns max_item_chars).length *
        (effectiveAdjectives max_item_chars).length ^ k *
        (effectiveAdjectives max_item_chars).length := by
    rw [totalWords_eq, hk1, pow_succ, ← mul_assoc]
  set N := effectiveNouns max_item_chars with hN
  set A := effectiveAdjectives max_item_chars with hA
  set H := h (objBytes o) * PRIME_FACTOR with hH
  set j := (match join with | none => "" | some s => s) with hj
  set selk := selectParticles (N :: List.replicate k A)
    (H % (N.length * A.length ^ k)) with hselk
  set w0 := A.getD (H % (N.length * A.length ^ k * A.length) /
    (N.length * A.length ^ k) % A.length) "" with hw0
  have hk_code : codenamize algos o (k : Int) max_item_chars join cap name =
      .ok (String.intercalate j
        (if cap then selk.reverse.map capitalizeWord else selk.reverse)) := by
    rw [codenamize_ok algos o (k : Int) max_item_chars join cap name h halgo, e1, t1]
  have hk1_code : codenamize algos o ((k : Int) + 1) max_item_chars join cap name =
      .ok (String.intercalate j
        (if cap then (w0 :: selk.reverse).map capitalizeWord else (w0 :: selk.reverse))) := by
    rw [codenamize_ok algos o ((k : Int) + 1) max_item_chars join cap name h halgo, e2, t2,
      select_step N A H k]
    simp only [List.reverse_append, List.reverse_cons, List.reverse_nil, List.nil_append,
      List.singleton_append]
  have hne : selk.reverse ≠ [] := by
    intro hnil
    have hlen : selk.reverse.length = 0 := by rw [hnil]; rfl
    rw [List.length_reverse, hselk, selectParticles_length] at hlen
    simp at hlen
  cases cap with
  | false =>
    exact ⟨w0 ++ j, _, hk_code, hk1_code.trans (congrArg Except.ok
      (intercalate_cons_of_ne_nil j w0 selk.reverse hne))⟩
  | true =>
    have hne2 : selk.reverse.map capitalizeWord ≠ [] := by
      intro hnil
      exact hne (List.map_eq_nil_iff.mp hnil)
    exact ⟨capitalizeWord w0 ++ j, _, hk_code, hk1_code.trans (congrArg Except.ok
      (intercalate_cons_of_ne_nil j (capitalizeWord w0) (selk.reverse.map capitalizeWord) hne2))⟩

/-- C7: for any object, ceiling, join text and capitalization, the codename
with no adjective is a suffix of the one with one adjective, which is a suffix
of the one with two adjectives. -/
theorem c7_adjective_suffix (algos : AlgoTable) (name : String) (h : HashFn)
    (halgo : algos name = some h) (o : Obj) (max_item_chars : Int)
    (join : Option String) (cap : Bool) :
    ∃ c0 c1 c2 : String,
      codenamize algos o 0 max_item_chars join cap name = .ok c0 ∧
      codenamize algos o 1 max_item_chars join cap name = .ok c1 ∧
      codenamize algos o 2 max_item_chars join cap name = .ok c2 ∧
      (∃ u, c1 = u ++ c0) ∧ (∃ v, c2 = v ++ c1) := by
  obtain ⟨u1, c0, hc0, hc1⟩ := codename_step algos name h halgo o max_item_chars join cap 0
  obtain ⟨u2, c1', hc1', hc2⟩ := codename_step algos name h halgo o max_item_chars join cap 1
  norm_num at hc0 hc1 hc1' hc2
  have hc1'' : c1' = u1 ++ c0 := Except.ok.inj (hc1'.symm.trans hc1)
  exact ⟨c0, u1 ++ c0, u2 ++ c1', hc0, hc1, hc2, ⟨u1, rfl⟩, ⟨u2, by rw [hc1'']⟩⟩

/-- Witness for `c7_adjective_suffix` at a concrete table and object. -/
theorem c7_adjective_suffix_witness :
    constTable 7 "md5" = some (fun _ => 7) ∧
    (∃ c0 c1 c2 : String,
      codenamize (constTable 7) (Obj.str "x") 0 5 (some "-") false "md5" = .ok c0 ∧
      codenamize (constTable 7) (Obj.str "x") 1 5 (some "-") false "md5" = .ok c1 ∧
      codenamize (constTable 7) (Obj.str "x") 2 5 (some "-") false "md5" = .ok c2 ∧
      (∃ u, c1 = u ++ c0) ∧ (∃ v, c2 = v ++ c1)) :=
  ⟨rfl, c7_adjective_suffix (constTable 7) "md5" (fun _ => 7) rfl (Obj.str "x") 5
    (some "-") false⟩

theorem effectiveNouns_subset (max_item_chars : Int) :
    effectiveNouns max_item_chars ⊆ NOUNS := by
  by_cases hpos : 0 < normMaxChars max_item_chars
  · simp only [effectiveNouns, if_pos hpos]
    exact List.take_subset _ _
  · simp only [effectiveNouns, if_neg hpos]
    exact fun x hx => hx

theorem effectiveAdjectives_subset (max_item_chars : Int) :
    effectiveAdjectives max_item_chars ⊆ ADJECTIVES := by
  by_cases hpos : 0 < normMaxChars max_item_chars
  · simp only [effectiveAdjectives, if_pos hpos]
    exact List.take_subset _ _
  · simp only [effectiveAdjectives, if_neg hpos]
    exact fun x hx => hx

set_option maxRecDepth 10000 in
/-- C8 counterexample: the noun "ox" has only 2 characters, so it is false
that every word of the word lists has length at least 3. -/
theorem c8_counterexample :
    "ox" ∈ NOUNS ∧ "ox".length = 2 ∧ ¬ (∀ w ∈ NOUNS, 3 ≤ w.length) := by
  have hmem : "ox" ∈ NOUNS := by rw [NOUNS_eq]; decide
  refine ⟨hmem, rfl, fun hall => ?_⟩
  have h3 := hall "ox" hmem
  rw [show ("ox".length = 2) from rfl] at h3
  omega

set_option maxRecDepth 10000 in
/-- C8 (amended): every adjective has at least 3 characters and every noun
other than "ox" (2 characters) has at least 3, so every selected particle has
at least 2 characters. -/
theorem c8_min_word_length (algos : AlgoTable) (name : String) (h : HashFn)
    (halgo : algos name = some h) (o : Obj) (adjectives max_item_chars : Int) :
    (∀ w ∈ ADJECTIVES, 3 ≤ w.length) ∧
    (∀ w ∈ NOUNS, w = "ox" ∨ 3 ≤ w.length) ∧
    (∀ w ∈ NOUNS, 2 ≤ w.length) ∧
    (∀ ws, codenamize_particles algos (some o) adjectives max_item_chars name =
      .ok (.inr ws) → ∀ w ∈ ws, 2 ≤ w.length) := by
  have hadj : ∀ w ∈ ADJECTIVES, 3 ≤ w.length := by rw [ADJECTIVES_eq]; decide
  have hnoun2 : ∀ w ∈ NOUNS, 2 ≤ w.length := by rw [NOUNS_eq]; decide
  refine ⟨hadj, by rw [NOUNS_eq]; decide, hnoun2, ?_⟩
  intro ws hws w hw
  rw [codenamize_particles_some algos o adjectives max_item_chars name h halgo] at hws
  have hws' : ws = (selectParticles (particlesFor adjectives max_item_chars)
      (h (objBytes o) * PRIME_FACTOR %
        totalWords adjectives max_item_chars)).reverse := by
    have := Except.ok.inj hws
    exact (Sum.inr.inj this).symm
  rw [hws', List.mem_reverse] at hw
  have hne : ∀ p ∈ particlesFor adjectives max_item_chars, p ≠ [] := by
    intro p hp
    rw [particlesFor_eq] at hp
    rcases hp with _ | ⟨_, hp⟩
    · exact effectiveNouns_ne_nil max_item_chars
    · rw [List.eq_of_mem_replicate hp]
      exact effectiveAdjectives_ne_nil max_item_chars
  obtain ⟨p, hp, hwp⟩ := selectParticles_mem _ hne _ w hw
  rw [particlesFor_eq] at hp
  rcases hp with _ | ⟨_, hp⟩
  · exact hnoun2 w (effectiveNouns_subset max_item_chars hwp)
  · rw [List.eq_of_mem_replicate hp] at hwp
    have h3 := hadj w (effectiveAdjectives_subset max_item_chars hwp)
    omega

set_option maxRecDepth 1000 in
/-- Witness for `c8_min_word_length` at a concrete table and call. -/
theorem c8_min_word_length_witness :
    constTable 7 "md5" = some (fun _ => 7) ∧
    ((∀ w ∈ ADJECTIVES, 3 ≤ w.length) ∧
    (∀ w ∈ NOUNS, w = "ox" ∨ 3 ≤ w.length) ∧
    (∀ w ∈ NOUNS, 2 ≤ w.length) ∧
    (∀ ws, codenamize_particles (constTable 7) (some (Obj.str "x")) 1 5 "md5" =
      .ok (.inr ws) → ∀ w ∈ ws, 2 ≤ w.length)) :=
  ⟨rfl, c8_min_word_length (constTable 7) "md5" (fun _ => 7) rfl (Obj.str "x") 1 5⟩
